import Mathlib

/-!
Verification development for the secureoperator DNS-over-HTTPS proxy.

The repository has a single source file under review, `main.go`, which wires
together flag configuration, the startup sequence, the TCP/UDP listener
goroutines and the signal-driven exit path.  The translation, caching and
protocol-handler components (`NewDMProvider`, `NewHandler`, `CSVtoIPs`,
`Handler.Handle`) live in files of this repository that are not part of the
reviewed tree, so those components are modelled from the specification text
and are marked as such in their doc comments.

Machine integers are modelled as `Nat`; DNS wire details irrelevant to the
claims (name compression, record data) are elided.  Stateful code is modelled
by explicit state passing; goroutine control flow is modelled by traces of
named steps.
-/

namespace SecOp

/-! ## Listener goroutine: `serve` (main.go lines 103-117)

`serve` receives a transport name from the channel, logs, builds a
`dns.Server` and calls `ListenAndServe`.  `ListenAndServe` blocks while the
listener serves; it returns a non-nil error when binding or serving fails,
and returns nil only after `server.Shutdown()` is called from another
goroutine.  On a non-nil error `serve` calls `log.Fatalf`, which logs and
then terminates the whole process via `os.Exit(1)`. -/

/-- Outcome of the blocking `server.ListenAndServe()` call inside `serve`:
it either returned a non-nil error (bind or serve failure), returned nil
because some other goroutine called `server.Shutdown()`, or is still blocked
serving requests (the normal steady state). -/
inductive ListenOutcome
  | failed (msg : String)
  | stopped
  | serving
deriving DecidableEq, Repr

/-- Steps executed by the body of `serve` (main.go lines 103-117).
`fatalExit` models `log.Fatalf` at line 110: it logs and then terminates the
entire process (all goroutines, every transport) via `os.Exit(1)`. -/
inductive ServeStep
  | logStarting
  | listenAndServe
  | fatalExit
  | logShuttingDown
  | invokeShutdown
deriving DecidableEq, Repr

/-- Trace of steps `serve` executes for a given outcome of
`ListenAndServe` (main.go lines 105-116).  Lines 113-116 (the shutdown log
and the `server.Shutdown()` call) run only when `ListenAndServe` returns
nil, i.e. in the `stopped` outcome. -/
def serveTrace : ListenOutcome → List ServeStep
  | ListenOutcome.failed _ =>
      [ServeStep.logStarting, ServeStep.listenAndServe, ServeStep.fatalExit]
  | ListenOutcome.stopped =>
      [ServeStep.logStarting, ServeStep.listenAndServe,
       ServeStep.logShuttingDown, ServeStep.invokeShutdown]
  | ListenOutcome.serving =>
      [ServeStep.logStarting, ServeStep.listenAndServe]

/-- Actions of the signal-handling tail of `main` (main.go lines 219-223):
register the signal channel, block on it, then log and return from `main`
(which ends the process).  `callServerShutdown` would model a call to
`server.Shutdown()` for a transport; `main` contains no such call. -/
inductive MainAction
  | notifySignals
  | waitForSignal
  | logServersExited
  | callServerShutdown (transport : String)
deriving DecidableEq, Repr

/-- The exact action sequence of main.go lines 219-223. -/
def mainSignalBlock : List MainAction :=
  [MainAction.notifySignals, MainAction.waitForSignal, MainAction.logServersExited]

/-- Whether the signal path of `main` ever invokes a server shutdown. -/
def mainEverCallsShutdown : Bool :=
  mainSignalBlock.any fun a =>
    match a with
    | MainAction.callServerShutdown _ => true
    | _ => false

/-! ## Startup sequence of `main` (main.go lines 141-216)

`main` parses flags, then: parses the log level (`log.Fatalf` on error,
lines 147-150), parses the endpoint IP list with `CSVtoIPs` (`log.Fatalf`
on error, lines 171-174, followed by a second check of the same unchanged
`err` at lines 175-177), constructs the provider (`log.Fatal` on error,
lines 192-195), and only then starts one listener goroutine per enabled
transport (lines 201-216).  `log.Fatalf` terminates the process, so each
fatal branch is modelled as an early exit. -/

/-- Abstract results of the fallible startup calls made by `main`, plus the
transport enable flags.  `csvErr` is the single `err` value produced by
`CSVtoIPs` at line 171 and consulted by both checks at lines 172 and 175. -/
structure MainInputs where
  logLevelErr : Bool
  csvErr : Bool
  providerErr : Bool
  enableTCP : Bool
  enableUDP : Bool
deriving DecidableEq, Repr

/-- Which fatal branch of `main` terminated the process. -/
inductive ExitReason
  | invalidLogLevel
  | parseEndpointIPs
  | parseDnsServers
  | providerInit
deriving DecidableEq, Repr

/-- Result of the startup sequence: the process exited via one of the fatal
branches, or all fatal branches were passed and one listener goroutine was
started per enabled transport. -/
inductive StartupResult
  | exited (r : ExitReason)
  | listening (protocols : List String)
deriving DecidableEq, Repr

/-- True when the startup result is a fatal process exit. -/
def StartupResult.isExited : StartupResult → Bool
  | StartupResult.exited _ => true
  | StartupResult.listening _ => false

/-- True when the startup result is a fatal process exit via the given
branch. -/
def StartupResult.exitedVia : StartupResult → ExitReason → Bool
  | StartupResult.exited r, x => decide (r = x)
  | StartupResult.listening _, _ => false

/-- The `protocols` slice built at main.go lines 202-208: "tcp" appended when
the TCP flag is set, then "udp" when the UDP flag is set. -/
def protocolsList (tcp udp : Bool) : List String :=
  (if tcp then ["tcp"] else []) ++ (if udp then ["udp"] else [])

/-- The startup sequence of `main` (lines 147-216) with each `log.Fatalf`
modelled as an early process exit. -/
def mainStartup (i : MainInputs) : StartupResult :=
  if i.logLevelErr then StartupResult.exited ExitReason.invalidLogLevel
  else if i.csvErr then StartupResult.exited ExitReason.parseEndpointIPs
  else if i.csvErr then StartupResult.exited ExitReason.parseDnsServers
  else if i.providerErr then StartupResult.exited ExitReason.providerInit
  else StartupResult.listening (protocolsList i.enableTCP i.enableUDP)

/-! ## Endpoint URL default (main.go lines 22-24 and 46-50, 179) -/

/-- The constant `gdnsEndpoint` (main.go line 23). -/
def gdnsEndpoint : String := "https://dns.google/dns-query"

/-- The default value of the `-endpoint` flag (main.go lines 46-50). -/
def endpointFlagDefault : String := gdnsEndpoint

/-- The endpoint URL `ep` used by `main` (line 179): the configured flag
value, or the flag default when the flag was not supplied. -/
def effectiveEndpoint : Option String → String
  | some u => u
  | none => endpointFlagDefault

/-! ## Channel-based listener handoff (main.go lines 211-216)

`main` creates an unbuffered channel `servers`, and for each enabled
protocol spawns `go serve(servers)` and then performs `servers <- p`.  Each
`serve` goroutine receives exactly once.  Because the channel is unbuffered,
the send in iteration i rendezvouses with the unique goroutine still blocked
on its receive: every goroutine spawned in an earlier iteration has already
completed its single receive (its send completed), so the only possible
receiver is the goroutine spawned in the current iteration. -/

/-- Tasks spawned so far, each holding the transport name it has received
from the channel (`none` while still blocked on the receive). -/
def rendezvous : List (Option String) → String → List (Option String)
  | [], _ => []
  | none :: rest, p => some p :: rest
  | some q :: rest, p => some q :: rendezvous rest p

/-- One iteration of the loop at main.go lines 213-216: spawn a fresh
`serve` goroutine (blocked on its receive), then send `p`, which is
delivered to the unique still-blocked receiver. -/
def handoffStep (tasks : List (Option String)) (p : String) : List (Option String) :=
  rendezvous (tasks ++ [none]) p

/-- The channel-based handoff of main.go lines 211-216: fold the loop body
over the enabled protocol list, starting with no tasks. -/
def channelHandoff (tcp udp : Bool) : List (Option String) :=
  (protocolsList tcp udp).foldl handoffStep []

/-- The re-expression proposed by the spec: spawn one independent task per
enabled transport, each directly parameterized with its transport type. -/
def directSpawn (tcp udp : Bool) : List (Option String) :=
  (protocolsList tcp udp).map some

/-! ## DNS pipeline: handler, cache, translator

The `Handler`, its cache and the `DMProvider` translation live in repository
files that are not part of the reviewed tree (`main.go` only constructs them
at lines 192-199).  They are modelled from the specification below. -/

/-- A DNS question: name, type, class. -/
structure Question where
  name : String
  qtype : Nat
  qclass : Nat
deriving DecidableEq, Repr

/-- A DNS answer resource record; only the TTL matters to the claims, the
rest is carried opaquely. -/
structure ResourceRecord where
  rname : String
  rtype : Nat
  ttl : Nat
  rdata : String
deriving DecidableEq, Repr

/-- A decoded DNS message with a single question (the translator rejects
multi-question queries, spec 4.3 step 1). -/
structure DnsMsg where
  txid : Nat
  question : Question
  rcode : Nat
  answer : List ResourceRecord
deriving DecidableEq, Repr

/-- DNS response code for success (NOERROR). -/
def rcodeSuccess : Nat := 0

/-- DNS response code SERVFAIL. -/
def rcodeServfail : Nat := 2

/-- DNS record type AAAA. -/
def typeAAAA : Nat := 28

/-- Modelled from the spec: the Query Fingerprint (section 3), derived from
the case-folded question name, question type, question class and the EDNS
client-subnet value actually sent.  The fingerprinting code is not in the
reviewed tree. -/
def fingerprint (subnet : String) (q : Question) : String :=
  q.name.toLower ++ "|" ++ toString q.qtype ++ "|" ++ toString q.qclass ++ "|" ++ subnet

/-- Modelled from the spec: effective TTL of an answer (section 3), the
minimum TTL among the answer resource records, 0 when there are none. -/
def effectiveTTL (m : DnsMsg) : Nat :=
  match m.answer.map (fun r => r.ttl) with
  | [] => 0
  | t :: ts => ts.foldl Nat.min t

/-- A stored cache entry (spec section 3): decoded answer, insertion
timestamp, effective TTL.  Immutable once inserted. -/
structure CacheEntry where
  answer : DnsMsg
  insertedAt : Nat
  ttl : Nat
deriving DecidableEq, Repr

/-- Modelled from the spec: the Response Cache state (sections 3 and 4.4),
an association list from fingerprints to entries, plus a counter of
upstream HTTPS calls (the call counter on a stubbed transport that the
spec section 8 uses to state the properties).  The cache code is not in the
reviewed tree. -/
structure CacheState where
  entries : List (String × CacheEntry)
  upstreamCalls : Nat
deriving DecidableEq, Repr

/-- Find the entry stored for a fingerprint, newest first. -/
def assocFind : List (String × CacheEntry) → String → Option CacheEntry
  | [], _ => none
  | (k, e) :: rest, fp => if k = fp then some e else assocFind rest fp

/-- Modelled from the spec: `Lookup(fingerprint)` (section 4.4) with lazy
expiry (section 3): an entry is served only strictly before its insertion
time plus its effective TTL. -/
def cacheLookup (s : CacheState) (fp : String) (now : Nat) : Option DnsMsg :=
  match assocFind s.entries fp with
  | some e => if now < e.insertedAt + e.ttl then some e.answer else none
  | none => none

/-- Modelled from the spec: the store step of `GetOrFetch` (section 4.4).
A fetched success answer is stored with TTL derived from the answer only
when its rcode is success and its effective TTL is nonzero; TTL-0 and error
results are not stored.  The second component of the input pair is the
upstream call counter returned by the fetch. -/
def storeResult (s : CacheState) (fp : String) (now : Nat) :
    Except String DnsMsg × Nat → Except String DnsMsg × CacheState
  | (Except.ok ans, c) =>
      if ans.rcode = rcodeSuccess ∧ effectiveTTL ans ≠ 0 then
        (Except.ok ans,
         { entries := (fp, { answer := ans, insertedAt := now, ttl := effectiveTTL ans }) :: s.entries,
           upstreamCalls := c })
      else (Except.ok ans, { entries := s.entries, upstreamCalls := c })
  | (Except.error e, c) => (Except.error e, { entries := s.entries, upstreamCalls := c })

/-- Modelled from the spec: `GetOrFetch(fingerprint, fetchFn)` (section 4.4),
sequentialized (the in-flight de-duplication concerns concurrent callers and
is not needed by the claims proved here).  When the cache is disabled it
degenerates to always calling `fetchFn`.  `fetchFn` receives and returns the
upstream call counter. -/
def getOrFetch (cacheEnabled : Bool) (s : CacheState) (fp : String) (now : Nat)
    (fetch : Nat → Except String DnsMsg × Nat) : Except String DnsMsg × CacheState :=
  if cacheEnabled then
    match cacheLookup s fp now with
    | some ans => (Except.ok ans, s)
    | none => storeResult s fp now (fetch s.upstreamCalls)
  else
    ((fetch s.upstreamCalls).1,
     { entries := s.entries, upstreamCalls := (fetch s.upstreamCalls).2 })

/-- A SERVFAIL reply synthesized for a query: same transaction id and
question, SERVFAIL rcode, no records. -/
def servfail (q : DnsMsg) : DnsMsg :=
  { txid := q.txid, question := q.question, rcode := rcodeServfail, answer := [] }

/-- The synthesized empty success answer for a disabled AAAA question: same
transaction id and question, success rcode, zero records. -/
def emptyAnswer (q : DnsMsg) : DnsMsg :=
  { txid := q.txid, question := q.question, rcode := rcodeSuccess, answer := [] }

/-- Modelled from the spec: the provider `Translate` operation (section 4.3)
restricted to what the claims need.  With the disable-AAAA policy active and
an AAAA question it short-circuits before contacting upstream and returns
the empty success answer (step 6); otherwise it performs one upstream HTTPS
round trip, modelled by the abstract upstream response together with an
increment of the call counter.  The provider code is not in the reviewed
tree. -/
def translate (noAAAA : Bool) (q : DnsMsg) (upstreamResp : Except String DnsMsg)
    (calls : Nat) : Except String DnsMsg × Nat :=
  if noAAAA ∧ q.question.qtype = typeAAAA then
    (Except.ok (emptyAnswer q), calls)
  else
    (upstreamResp, calls + 1)

/-- Modelled from the spec: the Protocol Handler `Handle` operation
(section 4.5).  It applies the AAAA-disable override before consulting the
cache (spec 4.5, the policy being independent of caching per 4.3 step 6),
then delegates to `GetOrFetch` with a fetch function bound to the
translator, and on pipeline error synthesizes a SERVFAIL reply with the
same transaction id and question instead of propagating the error.  The
handler code is not in the reviewed tree.  The return type being a plain
message paired with the new state reflects that the transport always
receives a well-formed DNS message. -/
def handle (cacheEnabled noAAAA : Bool) (subnet : String) (s : CacheState)
    (q : DnsMsg) (now : Nat) (upstreamResp : Except String DnsMsg) : DnsMsg × CacheState :=
  if noAAAA ∧ q.question.qtype = typeAAAA then
    (emptyAnswer q, s)
  else
    let r := getOrFetch cacheEnabled s (fingerprint subnet q.question) now
      (translate noAAAA q upstreamResp)
    match r.1 with
    | Except.ok ans => (ans, r.2)
    | Except.error _ => (servfail q, r.2)

/-! ### Concrete sample data used to exercise the definitions -/

/-- The question of the spec section 8 example scenario: `example.com A`. -/
def sampleQuestion : Question := { name := "example.com", qtype := 1, qclass := 1 }

/-- The A record of the example scenario, TTL 300. -/
def sampleRecord : ResourceRecord :=
  { rname := "example.com", rtype := 1, ttl := 300, rdata := "93.184.216.34" }

/-- A successful upstream answer for the example scenario. -/
def sampleAnswer : DnsMsg :=
  { txid := 7, question := sampleQuestion, rcode := rcodeSuccess, answer := [sampleRecord] }

/-- An incoming query for the example scenario. -/
def sampleQuery : DnsMsg :=
  { txid := 7, question := sampleQuestion, rcode := rcodeSuccess, answer := [] }

/-- An incoming AAAA query. -/
def sampleAAAAQuery : DnsMsg :=
  { txid := 9, question := { name := "example.com", qtype := 28, qclass := 1 },
    rcode := rcodeSuccess, answer := [] }

/-- An upstream answer carrying a DNS-level error status and no records. -/
def sampleErrAnswer : DnsMsg :=
  { txid := 7, question := sampleQuestion, rcode := rcodeServfail, answer := [] }

/-! ## Theorems -/

/-- Helper: the store step never changes the returned answer. -/
theorem storeResult_fst (s : CacheState) (fp : String) (now : Nat)
    (r : Except String DnsMsg × Nat) : (storeResult s fp now r).1 = r.1 := by
  rcases r with ⟨res, c⟩
  cases res with
  | ok a =>
    rw [storeResult]
    split
    · rfl
    · rfl
  | error e => rfl

/-- Helper: the store step passes the fetch call counter through. -/
theorem storeResult_calls (s : CacheState) (fp : String) (now : Nat)
    (r : Except String DnsMsg × Nat) : (storeResult s fp now r).2.upstreamCalls = r.2 := by
  rcases r with ⟨res, c⟩
  cases res with
  | ok a =>
    rw [storeResult]
    split
    · rfl
    · rfl
  | error e => rfl

/-- Helper: an error result of `getOrFetch` can only come from the fetch
function, invoked at the current call counter. -/
theorem getOrFetch_error_from_fetch (cE : Bool) (s : CacheState) (fp : String)
    (now : Nat) (f : Nat → Except String DnsMsg × Nat) (e : String)
    (h : (getOrFetch cE s fp now f).1 = Except.error e) :
    (f s.upstreamCalls).1 = Except.error e := by
  cases cE with
  | false => simpa [getOrFetch] using h
  | true =>
    rw [getOrFetch] at h
    simp only [if_true] at h
    cases hl : cacheLookup s fp now with
    | some a => rw [hl] at h; exact absurd h (by simp)
    | none =>
      rw [hl] at h
      rw [storeResult_fst] at h
      exact h

/-- Claim C1, counterexample to the claim as stated.  The claim says a
failure binding or serving one transport stops only that listener and the
process as a whole does not terminate.  In `serve` (main.go line 110) a
`ListenAndServe` error is handled by `log.Fatalf`, modelled as `fatalExit`,
which terminates the entire process: at the concrete input where the TCP
bind fails, the trace of `serve` contains the process-terminating step. -/
theorem serve_failure_terminates_process_cex :
    ServeStep.fatalExit ∈ serveTrace (ListenOutcome.failed "listen tcp :53 bind error") := by
  decide

/-- Claim C1, amended: when `ListenAndServe` for a transport fails, `serve`
logs and terminates the whole process via `log.Fatalf`; the trace ends in
`fatalExit` and never reaches the shutdown steps, and the other transport
does not keep serving because the process itself exits. -/
theorem serve_failure_trace (msg : String) :
    serveTrace (ListenOutcome.failed msg) =
      [ServeStep.logStarting, ServeStep.listenAndServe, ServeStep.fatalExit] := by
  rfl

/-- Claim C6: the code never performs the graceful shutdown the claim
describes.  Evaluating the model: the signal path of `main` (lines 219-223)
contains no `server.Shutdown` call, and in the listener outcomes reachable
without an external shutdown request (still serving, or failed with
`log.Fatalf`), `serve` never reaches its `invokeShutdown` step, so the
`server.Shutdown()` call at line 114 is unreachable. -/
theorem shutdown_never_invoked :
    mainEverCallsShutdown = false ∧
    ((serveTrace ListenOutcome.serving).contains ServeStep.invokeShutdown) = false ∧
    ((serveTrace (ListenOutcome.failed "accept error")).contains ServeStep.invokeShutdown) = false := by
  decide

/-- Claim C7: every startup configuration error (invalid log level, invalid
endpoint-IP list, provider construction failure such as a malformed EDNS
subnet literal) makes `mainStartup` exit before the listening stage, so no
listener is ever started under an invalid configuration. -/
theorem startup_error_exits_before_listeners (i : MainInputs)
    (h : i.logLevelErr = true ∨ i.csvErr = true ∨ i.providerErr = true) :
    (mainStartup i).isExited = true := by
  obtain ⟨ll, cs, pv, t, u⟩ := i
  cases ll <;> cases cs <;> cases pv <;>
    simp_all [mainStartup, StartupResult.isExited]

/-- Claim C7 witness: at the concrete configuration with an invalid log
level, startup exits. -/
theorem startup_error_exits_before_listeners_witness :
    ((⟨true, false, false, true, true⟩ : MainInputs).logLevelErr = true ∨
      (⟨true, false, false, true, true⟩ : MainInputs).csvErr = true ∨
      (⟨true, false, false, true, true⟩ : MainInputs).providerErr = true) ∧
    (mainStartup ⟨true, false, false, true, true⟩).isExited = true :=
  ⟨Or.inl rfl,
   startup_error_exits_before_listeners ⟨true, false, false, true, true⟩ (Or.inl rfl)⟩

/-- Claim C8: for every setting of the TCP and UDP toggles, the unbuffered
channel handoff assigns to each spawned task exactly the transport sent in
its spawning iteration; the resulting task list coincides with spawning one
task per enabled transport directly parameterized with its transport, and
exactly one task is started per enabled transport. -/
theorem handoff_equals_direct_spawn (tcp udp : Bool) :
    channelHandoff tcp udp = directSpawn tcp udp ∧
    (channelHandoff tcp udp).length = (protocolsList tcp udp).length := by
  cases tcp <;> cases udp <;> decide

/-- Claim C9: when no endpoint URL is configured, the effective DoH
endpoint URL is exactly the Google default. -/
theorem default_endpoint_url :
    effectiveEndpoint none = "https://dns.google/dns-query" := rfl

/-- Claim C10: the second error branch of `main` (lines 175-177, message
"error parsing dns-servers") re-checks the same unchanged `err` already
handled fatally by the endpoint-ips branch at lines 172-174, so startup can
never exit via that branch, for any configuration. -/
theorem parse_dns_servers_branch_unreachable (i : MainInputs) :
    (mainStartup i).exitedVia ExitReason.parseDnsServers = false := by
  obtain ⟨ll, cs, pv, t, u⟩ := i
  cases ll <;> cases cs <;> cases pv <;>
    simp [mainStartup, StartupResult.exitedVia, protocolsList]

/-- Claim C2: whenever the pipeline (cache plus translator over the query
fingerprint) produces an error, `Handle` returns the synthesized SERVFAIL
message, which carries the transaction id and question of the incoming
query; the transport always receives this well-formed message (the model
returns a plain `DnsMsg`, never an error). -/
theorem handle_pipeline_error_servfail (cacheEnabled noAAAA : Bool) (subnet : String)
    (s : CacheState) (q : DnsMsg) (now : Nat) (up : Except String DnsMsg) (e : String)
    (herr : (getOrFetch cacheEnabled s (fingerprint subnet q.question) now
        (translate noAAAA q up)).1 = Except.error e) :
    (handle cacheEnabled noAAAA subnet s q now up).1 = servfail q ∧
    (servfail q).txid = q.txid ∧ (servfail q).question = q.question ∧
    (servfail q).rcode = rcodeServfail := by
  refine ⟨?_, rfl, rfl, rfl⟩
  by_cases hq : (noAAAA = true) ∧ q.question.qtype = typeAAAA
  · exfalso
    have hf := getOrFetch_error_from_fetch cacheEnabled s
      (fingerprint subnet q.question) now (translate noAAAA q up) e herr
    simp [translate, hq] at hf
  · simp [handle, hq, herr]

/-- Claim C2 witness: a concrete query against a failing upstream with the
cache disabled yields exactly the SERVFAIL reply. -/
theorem handle_pipeline_error_servfail_witness :
    (getOrFetch false ⟨[], 0⟩ (fingerprint "auto" sampleQuery.question) 0
        (translate false sampleQuery (Except.error "http status 500"))).1 =
      Except.error "http status 500" ∧
    (handle false false "auto" ⟨[], 0⟩ sampleQuery 0
        (Except.error "http status 500")).1 = servfail sampleQuery :=
  ⟨rfl,
   (handle_pipeline_error_servfail false false "auto" ⟨[], 0⟩ sampleQuery 0
     (Except.error "http status 500") "http status 500" rfl).1⟩

/-- Claim C3: with caching enabled, when the first resolution of a
fingerprint succeeds with nonzero effective TTL at time t1, a second
`GetOrFetch` of the same fingerprint at any time t2 before t1 plus the TTL
returns the identical answer, and across both queries exactly one upstream
call is made (the second fetch function is arbitrary and never invoked). -/
theorem cache_idempotent_single_upstream_call (s0 : CacheState) (fp : String)
    (t1 t2 : Nat) (ans : DnsMsg) (f2 : Nat → Except String DnsMsg × Nat)
    (hmiss : assocFind s0.entries fp = none)
    (hrc : ans.rcode = rcodeSuccess)
    (httl : effectiveTTL ans ≠ 0)
    (ht : t2 < t1 + effectiveTTL ans) :
    (getOrFetch true s0 fp t1 (fun c => (Except.ok ans, c + 1))).1 = Except.ok ans ∧
    (getOrFetch true (getOrFetch true s0 fp t1 (fun c => (Except.ok ans, c + 1))).2
        fp t2 f2).1 = Except.ok ans ∧
    (getOrFetch true (getOrFetch true s0 fp t1 (fun c => (Except.ok ans, c + 1))).2
        fp t2 f2).2.upstreamCalls = s0.upstreamCalls + 1 := by
  have h1 : getOrFetch true s0 fp t1 (fun c => (Except.ok ans, c + 1)) =
      (Except.ok ans,
       { entries := (fp, { answer := ans, insertedAt := t1, ttl := effectiveTTL ans }) :: s0.entries,
         upstreamCalls := s0.upstreamCalls + 1 }) := by
    simp [getOrFetch, cacheLookup, hmiss, storeResult, hrc, httl]
  have h2 : cacheLookup
      { entries := (fp, { answer := ans, insertedAt := t1, ttl := effectiveTTL ans }) :: s0.entries,
        upstreamCalls := s0.upstreamCalls + 1 } fp t2 = some ans := by
    simp [cacheLookup, assocFind, ht]
  refine ⟨?_, ?_, ?_⟩
  · rw [h1]
  · rw [h1, getOrFetch]
    simp [h2]
  · rw [h1, getOrFetch]
    simp [h2]

/-- Claim C3 witness: the spec section 8 example scenario, a TTL-300 A
answer fetched at time 0 and re-asked at time 299, with a total of one
upstream call. -/
theorem cache_idempotent_single_upstream_call_witness :
    assocFind (([] : List (String × CacheEntry))) (fingerprint "auto" sampleQuestion) = none ∧
    sampleAnswer.rcode = rcodeSuccess ∧
    effectiveTTL sampleAnswer ≠ 0 ∧
    (getOrFetch true (getOrFetch true ⟨[], 0⟩ (fingerprint "auto" sampleQuestion) 0
        (fun c => (Except.ok sampleAnswer, c + 1))).2
      (fingerprint "auto" sampleQuestion) 299
      (fun c => (Except.error "unused", c + 1))).2.upstreamCalls = 0 + 1 :=
  ⟨rfl, rfl, by decide,
   (cache_idempotent_single_upstream_call ⟨[], 0⟩ (fingerprint "auto" sampleQuestion)
     0 299 sampleAnswer (fun c => (Except.error "unused", c + 1))
     rfl rfl (by decide) (by decide)).2.2⟩

/-- Claim C4: a cache entry is never returned by a lookup at or after its
insertion time plus its effective TTL (part one); and a fetched answer that
is an error response or has effective TTL zero is not stored, so a repeated
identical query misses again and invokes the fetch function afresh (part
two, where the final counter equals whatever the second fetch returns when
invoked on the counter left by the first fetch). -/
theorem cache_expiry_and_no_store :
    (∀ (s : CacheState) (fp : String) (now : Nat) (e : CacheEntry),
        assocFind s.entries fp = some e → e.insertedAt + e.ttl ≤ now →
        cacheLookup s fp now = none) ∧
    (∀ (s : CacheState) (fp : String) (t1 t2 : Nat) (ans : DnsMsg)
        (f2 : Nat → Except String DnsMsg × Nat),
        assocFind s.entries fp = none →
        (ans.rcode ≠ rcodeSuccess ∨ effectiveTTL ans = 0) →
        (getOrFetch true s fp t1 (fun c => (Except.ok ans, c + 1))).2.entries = s.entries ∧
        (getOrFetch true (getOrFetch true s fp t1 (fun c => (Except.ok ans, c + 1))).2
            fp t2 f2).2.upstreamCalls = (f2 (s.upstreamCalls + 1)).2) := by
  constructor
  · intro s fp now e hfind hle
    have hnl : ¬ now < e.insertedAt + e.ttl := Nat.not_lt.mpr hle
    simp [cacheLookup, hfind, hnl]
  · intro s fp t1 t2 ans f2 hmiss hbad
    have hcond : ¬(ans.rcode = rcodeSuccess ∧ effectiveTTL ans ≠ 0) := by tauto
    have h1 : getOrFetch true s fp t1 (fun c => (Except.ok ans, c + 1)) =
        (Except.ok ans, { entries := s.entries, upstreamCalls := s.upstreamCalls + 1 }) := by
      simp [getOrFetch, cacheLookup, hmiss, storeResult, hcond]
    have h2 : cacheLookup
        { entries := s.entries, upstreamCalls := s.upstreamCalls + 1 } fp t2 = none := by
      simp [cacheLookup, hmiss]
    constructor
    · rw [h1]
    · rw [h1, getOrFetch]
      simp [h2, storeResult_calls]

/-- Claim C4 witness: a TTL-300 entry inserted at time 0 is not served at
time 300, and a SERVFAIL upstream answer is not stored while the repeated
query fetches afresh. -/
theorem cache_expiry_and_no_store_witness :
    cacheLookup ⟨[(fingerprint "auto" sampleQuestion, ⟨sampleAnswer, 0, 300⟩)], 1⟩
        (fingerprint "auto" sampleQuestion) 300 = none ∧
    sampleErrAnswer.rcode ≠ rcodeSuccess ∧
    (getOrFetch true ⟨[], 3⟩ (fingerprint "auto" sampleQuestion) 0
        (fun c => (Except.ok sampleErrAnswer, c + 1))).2.entries =
      ([] : List (String × CacheEntry)) :=
  ⟨cache_expiry_and_no_store.1 ⟨[(fingerprint "auto" sampleQuestion, ⟨sampleAnswer, 0, 300⟩)], 1⟩
      (fingerprint "auto" sampleQuestion) 300 ⟨sampleAnswer, 0, 300⟩ (by simp [assocFind])
      (by decide),
   by decide,
   (cache_expiry_and_no_store.2 ⟨[], 3⟩ (fingerprint "auto" sampleQuestion) 0 0
     sampleErrAnswer (fun c => (Except.ok sampleAnswer, c + 1)) rfl
     (Or.inl (by decide))).1⟩

/-- Claim C5: with the AAAA-disable policy enabled, every AAAA question is
answered with the synthesized success answer holding zero records, the
upstream call counter is unchanged, and this holds for every cache setting,
cache state, subnet and upstream behavior. -/
theorem noAAAA_empty_answer_zero_upstream (cacheEnabled : Bool) (subnet : String)
    (s : CacheState) (q : DnsMsg) (now : Nat) (up : Except String DnsMsg)
    (hq : q.question.qtype = typeAAAA) :
    (handle cacheEnabled true subnet s q now up).1.rcode = rcodeSuccess ∧
    (handle cacheEnabled true subnet s q now up).1.answer = ([] : List ResourceRecord) ∧
    (handle cacheEnabled true subnet s q now up).2.upstreamCalls = s.upstreamCalls := by
  have hcond : True ∧ q.question.qtype = typeAAAA := ⟨trivial, hq⟩
  simp only [handle]
  rw [if_pos hcond]
  exact ⟨rfl, rfl, rfl⟩

/-- Claim C5 witness: a concrete AAAA query under both cache settings gets
the empty success answer with the counter untouched. -/
theorem noAAAA_empty_answer_zero_upstream_witness :
    sampleAAAAQuery.question.qtype = typeAAAA ∧
    (handle true true "auto" ⟨[], 0⟩ sampleAAAAQuery 0
        (Except.error "unreached")).1.answer = ([] : List ResourceRecord) ∧
    (handle false true "auto" ⟨[], 5⟩ sampleAAAAQuery 3
        (Except.ok sampleAnswer)).2.upstreamCalls = 5 :=
  ⟨rfl,
   (noAAAA_empty_answer_zero_upstream true "auto" ⟨[], 0⟩ sampleAAAAQuery 0
     (Except.error "unreached") rfl).2.1,
   (noAAAA_empty_answer_zero_upstream false "auto" ⟨[], 5⟩ sampleAAAAQuery 3
     (Except.ok sampleAnswer) rfl).2.2⟩

end SecOp
